import Mathlib

/-!
Verification of the analyzejd two-pass JD-analysis pipeline.

The Python source is shallowly embedded: Python strings are modelled as
`List Char` (ASCII-faithful; `str.lower()` becomes `Char.toLower` mapped over
the list, the substring operator `in` becomes `containsSub`), Python floats
are modelled as exact rationals `ℚ`, dicts with a fixed key set become
structures, and ordered dict iteration becomes iteration over an association
list in declaration order.  Fallible operations return `Option`.
-/

/-- Python strings, modelled as lists of characters. -/
abbrev Str := List Char

/-- Coerce a Lean string literal into the `Str` model. -/
def str (s : String) : Str := s.toList

/-- Python `str.lower()` (ASCII case mapping). -/
def pyLower (s : Str) : Str := s.map Char.toLower

/-- `startsWithL needle hay`: `hay` begins with `needle`. -/
def startsWithL : Str → Str → Bool
  | [], _ => true
  | _ :: _, [] => false
  | a :: as, b :: bs => a == b && startsWithL as bs

/-- Python substring containment `needle in hay`, by scanning every start
position. -/
def containsSub (needle : Str) : Str → Bool
  | [] => startsWithL needle []
  | c :: rest => startsWithL needle (c :: rest) || containsSub needle rest

/-- Propositional form of substring occurrence. -/
def OccursIn (needle hay : Str) : Prop := ∃ p s, hay = p ++ (needle ++ s)

/-- Python `sep.join(parts)`. -/
def pyJoin (sep : Str) : List Str → Str
  | [] => []
  | [x] => x
  | x :: y :: rest => x ++ sep ++ pyJoin sep (y :: rest)

/-! ## Decision Engine (`app/services/decision_interpreter.py`) -/

/-- The decision dict returned by `interpret_decision`: it always has exactly
these four keys. -/
structure Decision where
  recommendation : Str
  risk_level : Str
  reasoning : Str
  what_to_do_instead : Str
deriving DecidableEq

/-- `required_experience.lower() if required_experience else ""`
(`None` and the empty string both yield `""`). -/
def expLowerOf : Option Str → Str
  | some e => pyLower e
  | none => []

/-- `[r.lower() for r in risks] if risks else []`. -/
def risksLowerOf : Option (List Str) → List Str
  | some rs => rs.map pyLower
  | none => []

/-- Python truthiness of the `risks` argument. -/
def hasRisksOf : Option (List Str) → Bool
  | some rs => !rs.isEmpty
  | none => false

/-- Bond-related risk keywords checked by rule 2. -/
def bond_keywords : List Str :=
  [str "bond", str "service agreement", str "liquidated damages"]

/-- Payment-related risk keywords checked by rule 2. -/
def payment_keywords : List Str :=
  [str "cheque", str "bank guarantee", str "training cost"]

/-- Rule 1 condition: senior-experience marker and a Service company
(the nested `if` pair in the source returns only when both hold). -/
def rule1Cond (company_type : Str) (exp_lower : Str) : Bool :=
  (containsSub (str "8+") exp_lower || containsSub (str "8-10") exp_lower ||
      containsSub (str "lead") exp_lower || containsSub (str "principal") exp_lower) &&
    company_type == str "Service"

/-- Rule 2 condition: `bond_risks or payment_risks`, each an `any` of keyword
containment in `" ".join(risks_lower)`. -/
def rule2Cond (risks_lower : List Str) : Bool :=
  (bond_keywords.any fun kw => containsSub kw (pyJoin (str " ") risks_lower)) ||
    (payment_keywords.any fun kw => containsSub kw (pyJoin (str " ") risks_lower))

/-- `interpret_decision` from `app/services/decision_interpreter.py`: the
deterministic rule table, first matching rule wins. -/
def interpret_decision (company_type : Str) (risks : Option (List Str))
    (required_experience : Option Str) : Decision :=
  let exp_lower := expLowerOf required_experience
  let risks_lower := risksLowerOf risks
  -- Rule 1: Senior role in service company
  if rule1Cond company_type exp_lower then
    { recommendation := str "Skip"
      risk_level := str "High"
      reasoning := str "This role targets senior professionals in service-based delivery. As a fresher or early-career engineer, you would be competing against candidates with 8+ years of experience. Look for roles explicitly designed for your experience level."
      what_to_do_instead := str "Focus on fresher programs at product companies, or entry-level roles at startups where you can grow with the company." }
  -- Rule 2: Bond or payment-related risks
  else if rule2Cond risks_lower then
    { recommendation := str "Skip"
      risk_level := str "High"
      reasoning := str "This role has concerning terms around bonds or upfront payments. Legitimate companies do not ask for financial commitments from candidates. Even if the company is genuine, bonds limit your career mobility significantly."
      what_to_do_instead := str "Look for companies that invest in retention through good work culture and growth opportunities, not legal bindings." }
  -- Rule 3: Senior role for freshers (any company type)
  else if containsSub (str "5-8") exp_lower || containsSub (str "5+") exp_lower ||
      containsSub (str "senior") exp_lower then
    { recommendation := str "Skip"
      risk_level := str "High"
      reasoning := str "This role requires 5+ years of experience. Applying as a fresher is unlikely to succeed and may waste your time and energy. Focus on roles that match your current experience level."
      what_to_do_instead := str "Apply to entry-level or associate positions. Build experience for 2-3 years before targeting senior roles." }
  -- Rule 4: Service company with any risks
  else if company_type == str "Service" && hasRisksOf risks then
    { recommendation := str "Apply with Caution"
      risk_level := str "Medium"
      reasoning := str "Service-based roles often involve project-based work where your actual responsibilities depend on client allocation. The detected concerns suggest you should clarify the specific role and growth path before accepting an offer."
      what_to_do_instead := str "During interviews, ask about: the specific project you\x27ll join, the technology stack, and the typical career progression timeline." }
  -- Rule 5: Startup with unclear role or high risk signals
  else if company_type == str "Startup" && (hasRisksOf risks ||
      containsSub (str "unclear") exp_lower || containsSub (str "not specified") exp_lower) then
    { recommendation := str "Apply with Caution"
      risk_level := str "Medium"
      reasoning := str "Startups can offer great learning but also carry risks like unclear roles, high workload, or instability. The job description lacks clarity on some important aspects."
      what_to_do_instead := str "Research the startup\x27s funding status, ask about runway, and clarify your specific responsibilities before joining." }
  -- Rule 6: Service company even without explicit risks
  else if company_type == str "Service" then
    { recommendation := str "Apply with Caution"
      risk_level := str "Medium"
      reasoning := str "Service companies can provide good starting experience but may limit deep technical growth. Your work will depend on client projects, which you have limited control over."
      what_to_do_instead := str "If you join, try to get into product-oriented teams or internal R&D groups within the company for better learning opportunities." }
  -- Rule 7: Product company with fresher-aligned experience
  else if company_type == str "Product" then
    { recommendation := str "Apply"
      risk_level := str "Low"
      reasoning := str "Product companies generally offer better ownership and technical depth. This role appears to be a good fit for building strong engineering foundations."
      what_to_do_instead := str "Prepare a strong resume highlighting projects and problem-solving skills. Practice system design basics and coding fundamentals for interviews." }
  -- Rule 8: Captive center
  else if company_type == str "Captive" then
    { recommendation := str "Apply"
      risk_level := str "Low"
      reasoning := str "Captive centers of established companies often offer stability, structured work, and exposure to global practices. Good choice for work-life balance and steady growth."
      what_to_do_instead := str "Prepare by understanding the parent company\x27s domain. Highlight any relevant coursework or projects in that area." }
  -- Default: Apply
  else
    { recommendation := str "Apply"
      risk_level := str "Low"
      reasoning := str "Based on the available information, this role appears suitable for early-career engineers. No major concerns detected."
      what_to_do_instead := str "Prepare a strong resume and practice fundamentals. Research the company culture before interviews." }

/-! ## Quick-Pass confidence scoring (`app/services/pass1_quick.py`) -/

/-- `ConfidenceBreakdown` pydantic schema; floats modelled as exact rationals. -/
structure ConfidenceBreakdown where
  company_recognition : ℚ
  risk_signals : ℚ
  role_clarity : ℚ
  company_tier : ℚ
deriving DecidableEq

/-- `TIER_SCORES.get(company_tier, 0.4)`: tier scores for confidence
calculation, defaulting to 0.4 for unknown keys. -/
def TIER_SCORES_get (company_tier : Str) : ℚ :=
  if company_tier == str "FAANGM" then 1.0
  else if company_tier == str "Tier-1" then 0.85
  else if company_tier == str "Tier-2" then 0.65
  else if company_tier == str "Tier-3" then 0.5
  else if company_tier == str "Unknown" then 0.4
  else 0.4

/-- Python truthiness of an optional string (`None` and `""` are falsy). -/
def pyTruthyStr : Option Str → Bool
  | some n => !n.isEmpty
  | none => false

/-- `1.0 if company_name else 0.3`. -/
def companyRecognitionOf (company_name : Option Str) : ℚ :=
  if pyTruthyStr company_name then 1.0 else 0.3

/-- Python `round(x, 2)`, modelled as exact rounding of a rational to two
decimal places.  Every value this development rounds is an exact multiple of
1/100 or is only used through the bounds 0 ≤ round2 x ≤ 1, where the model
agrees with float rounding. -/
def pyRound2 (q : ℚ) : ℚ := (round (q * 100) : ℚ) / 100

/-- `calculate_confidence_score` from `app/services/pass1_quick.py`:
weighted 25/30/25/20 combination of the four component scores, returning
the rounded overall confidence together with the rounded breakdown.
(The `company_type` parameter is accepted but unused, as in the source.) -/
def calculate_confidence_score (company_name : Option Str) (company_type : Str)
    (company_tier : Str) (risk_signals : List Str) (role_clarity : ℚ) :
    ℚ × ConfidenceBreakdown :=
  let company_recognition := companyRecognitionOf company_name
  let risk_score : ℚ := max 0.2 (1.0 - ((risk_signals.length : ℚ) * 0.15))
  let role_clarity_score : ℚ := min 1.0 (max 0.0 role_clarity)
  let tier_score := TIER_SCORES_get company_tier
  let confidence :=
    company_recognition * 0.25 + risk_score * 0.30 +
      role_clarity_score * 0.25 + tier_score * 0.20
  let breakdown : ConfidenceBreakdown :=
    { company_recognition := pyRound2 company_recognition
      risk_signals := pyRound2 risk_score
      role_clarity := pyRound2 role_clarity_score
      company_tier := pyRound2 tier_score }
  (pyRound2 confidence, breakdown)

/-! ## Risk-signal detection (`app/utils/text_signals.py`) -/

/-- `RISK_KEYWORDS`: ordered keyword groups (dicts preserve insertion
order). -/
def RISK_KEYWORDS : List (Str × List Str) :=
  [(str "bond", [str "bond", str "service agreement", str "liquidated damages"]),
   (str "payment_risk", [str "cheque", str "bank guarantee", str "training cost"]),
   (str "workload", [str "rotational shifts", str "night shift", str "6 days"])]

/-- `detect_risk_signals`: scan every keyword group over the lower-cased text,
collecting matches in iteration order; `list(set(found))` is modelled as an
order-preserving dedup (CPython set iteration order is unspecified, and every
claim uses the result only up to set equality; the keywords are pairwise
distinct, so the dedup is a no-op on the collected list). -/
def detect_risk_signals (text : Str) : List Str :=
  let lower := pyLower text
  (((RISK_KEYWORDS.map Prod.snd).flatten).filter fun kw => containsSub kw lower).eraseDups

/-! ## Compensation extraction (`app/utils/ctc_extractor.py`) -/

/-- The Python regex `\s` whitespace class (ASCII part). -/
def isPySpace (c : Char) : Bool :=
  c == ' ' || c == '\t' || c == '\n' || c == '\r' || c == '\x0b' || c == '\x0c'

/-- The optional fractional group `(\.\d+)?`: consume a dot followed by at
least one digit, else consume nothing. -/
def fracPart : Str → Str × Str
  | [] => ([], [])
  | c :: t =>
    if c = '.' then
      let d2 := t.takeWhile Char.isDigit
      if d2.isEmpty then ([], c :: t) else (c :: d2, t.dropWhile Char.isDigit)
    else ([], c :: t)

/-- One attempt of the pattern `(\d+(\.\d+)?\s*(lpa|lakhs?|ctc))` anchored at
the current position.  Greedy sub-matches need no backtracking here: each
following piece begins with a character the preceding class rejects. -/
def matchAt (cs : Str) : Option Str :=
  let d1 := cs.takeWhile Char.isDigit
  if d1.isEmpty then none
  else
    let fr := fracPart (cs.dropWhile Char.isDigit)
    let sp := fr.2.takeWhile isPySpace
    let r3 := fr.2.dropWhile isPySpace
    if startsWithL (str "lpa") r3 then some (d1 ++ fr.1 ++ sp ++ str "lpa")
    else if startsWithL (str "lakhs") r3 then some (d1 ++ fr.1 ++ sp ++ str "lakhs")
    else if startsWithL (str "lakh") r3 then some (d1 ++ fr.1 ++ sp ++ str "lakh")
    else if startsWithL (str "ctc") r3 then some (d1 ++ fr.1 ++ sp ++ str "ctc")
    else none

/-- `re.search`: try every start position, left to right. -/
def searchCtc : Str → Option Str
  | [] => none
  | c :: rest =>
    match matchAt (c :: rest) with
    | some m => some m
    | none => searchCtc rest

/-- `extract_ctc` from `app/utils/ctc_extractor.py`: search the pattern in
the lower-cased JD text, returning the matched substring. -/
def extract_ctc (jd_text : Str) : Option Str := searchCtc (pyLower jd_text)

/-- The shape the spec describes: a number (with optional decimal part),
optional whitespace, then one of the unit words lpa / lakh(s) / ctc. -/
def CtcPattern (s : Str) : Prop :=
  ∃ d1 frac sp u : Str,
    s = d1 ++ frac ++ sp ++ u ∧ d1 ≠ [] ∧ (∀ c ∈ d1, c.isDigit = true) ∧
      (frac = [] ∨ ∃ d2, frac = '.' :: d2 ∧ d2 ≠ [] ∧ ∀ c ∈ d2, c.isDigit = true) ∧
      (∀ c ∈ sp, isPySpace c = true) ∧
      (u = str "lpa" ∨ u = str "lakhs" ∨ u = str "lakh" ∨ u = str "ctc")

/-! ## Company Registry and extraction (`app/utils/company_extractor.py`) -/

/-- One `COMPANY_DATABASE` entry: alias list plus classification. -/
structure CompanyData where
  aliases : List Str
  type : Str
  tier : Str
deriving DecidableEq

/-- The classification dict `{"type": ..., "tier": ...}`. -/
structure Classification where
  type : Str
  tier : Str
deriving DecidableEq

/-- `COMPANY_DATABASE`: the full static registry, in declaration order
(Python dicts preserve insertion order, and the scan order matters). -/
def COMPANY_DATABASE : List (Str × CompanyData) :=
  [(str "meta", ⟨[str "meta", str "meta platforms", str "facebook"], str "Product", str "FAANGM"⟩),
   (str "google", ⟨[str "google", str "alphabet", str "google llc"], str "Product", str "FAANGM"⟩),
   (str "amazon", ⟨[str "amazon", str "amazon.com", str "amazon india"], str "Product", str "FAANGM"⟩),
   (str "microsoft", ⟨[str "microsoft", str "microsoft india"], str "Product", str "FAANGM"⟩),
   (str "apple", ⟨[str "apple", str "apple india"], str "Product", str "FAANGM"⟩),
   (str "netflix", ⟨[str "netflix"], str "Product", str "FAANGM"⟩),
   (str "qualcomm", ⟨[str "qualcomm", str "qualcomm india", str "qualcomm india private limited"], str "Product", str "Tier-1"⟩),
   (str "intel", ⟨[str "intel", str "intel india", str "intel corporation"], str "Product", str "Tier-1"⟩),
   (str "nvidia", ⟨[str "nvidia", str "nvidia india", str "nvidia corporation"], str "Product", str "Tier-1"⟩),
   (str "amd", ⟨[str "amd", str "advanced micro devices"], str "Product", str "Tier-1"⟩),
   (str "broadcom", ⟨[str "broadcom", str "broadcom india"], str "Product", str "Tier-1"⟩),
   (str "wipro", ⟨[str "wipro", str "wipro limited", str "wipro technologies"], str "Service", str "Tier-1"⟩),
   (str "tcs", ⟨[str "tcs", str "tata consultancy services", str "tata consultancy"], str "Service", str "Tier-1"⟩),
   (str "infosys", ⟨[str "infosys", str "infosys limited", str "infosys technologies"], str "Service", str "Tier-1"⟩),
   (str "hcl", ⟨[str "hcl", str "hcl technologies", str "hcltech"], str "Service", str "Tier-1"⟩),
   (str "tech mahindra", ⟨[str "tech mahindra", str "techmahindra"], str "Service", str "Tier-1"⟩),
   (str "cognizant", ⟨[str "cognizant", str "cognizant technology solutions", str "cts"], str "Service", str "Tier-1"⟩),
   (str "capgemini", ⟨[str "capgemini", str "cap gemini"], str "Service", str "Tier-1"⟩),
   (str "accenture", ⟨[str "accenture", str "accenture india"], str "Service", str "Tier-1"⟩),
   (str "ltimindtree", ⟨[str "ltimindtree", str "lti", str "mindtree", str "l&t infotech"], str "Service", str "Tier-2"⟩),
   (str "mphasis", ⟨[str "mphasis"], str "Service", str "Tier-2"⟩),
   (str "persistent", ⟨[str "persistent", str "persistent systems"], str "Service", str "Tier-2"⟩),
   (str "hexaware", ⟨[str "hexaware", str "hexaware technologies"], str "Service", str "Tier-2"⟩),
   (str "cyient", ⟨[str "cyient", str "cyient limited"], str "Service", str "Tier-2"⟩),
   (str "zensar", ⟨[str "zensar", str "zensar technologies"], str "Service", str "Tier-2"⟩),
   (str "flipkart", ⟨[str "flipkart"], str "Product", str "Tier-1"⟩),
   (str "swiggy", ⟨[str "swiggy"], str "Product", str "Tier-1"⟩),
   (str "zomato", ⟨[str "zomato"], str "Product", str "Tier-1"⟩),
   (str "razorpay", ⟨[str "razorpay"], str "Product", str "Tier-1"⟩),
   (str "phonepe", ⟨[str "phonepe", str "phone pe"], str "Product", str "Tier-1"⟩),
   (str "paytm", ⟨[str "paytm", str "one97"], str "Product", str "Tier-1"⟩),
   (str "zerodha", ⟨[str "zerodha"], str "Product", str "Tier-1"⟩),
   (str "cred", ⟨[str "cred"], str "Product", str "Tier-1"⟩),
   (str "meesho", ⟨[str "meesho"], str "Product", str "Tier-1"⟩),
   (str "goldman sachs", ⟨[str "goldman sachs", str "gs", str "goldman"], str "Captive", str "Tier-1"⟩),
   (str "jp morgan", ⟨[str "jp morgan", str "jpmorgan", str "chase", str "jpm"], str "Captive", str "Tier-1"⟩),
   (str "morgan stanley", ⟨[str "morgan stanley"], str "Captive", str "Tier-1"⟩),
   (str "deutsche bank", ⟨[str "deutsche bank", str "db"], str "Captive", str "Tier-1"⟩),
   (str "barclays", ⟨[str "barclays"], str "Captive", str "Tier-1"⟩),
   (str "adobe", ⟨[str "adobe", str "adobe systems"], str "Product", str "Tier-1"⟩),
   (str "salesforce", ⟨[str "salesforce"], str "Product", str "Tier-1"⟩),
   (str "oracle", ⟨[str "oracle"], str "Product", str "Tier-1"⟩),
   (str "sap", ⟨[str "sap", str "sap labs"], str "Product", str "Tier-1"⟩),
   (str "atlassian", ⟨[str "atlassian"], str "Product", str "Tier-1"⟩),
   (str "uber", ⟨[str "uber"], str "Product", str "Tier-1"⟩),
   (str "linkedin", ⟨[str "linkedin"], str "Product", str "Tier-1"⟩)]

/-- `get_company_classification`: direct lower-case key lookup first, then a
scan over all aliases accepting exact alias equality or the name occurring as
a substring of an alias; first entry wins.  Empty (or absent) names yield
`None`. -/
def get_company_classification (company_name : Str) : Option Classification :=
  if company_name.isEmpty then none
  else
    let name_lower := pyLower company_name
    match COMPANY_DATABASE.find? (fun p => p.1 == name_lower) with
    | some p => some ⟨p.2.type, p.2.tier⟩
    | none =>
      match COMPANY_DATABASE.find? (fun p =>
          p.2.aliases.any fun a =>
            pyLower a == name_lower || containsSub name_lower (pyLower a)) with
      | some p => some ⟨p.2.type, p.2.tier⟩
      | none => none

/-- `override_company_classification`: the registry wins over the
provider-supplied classification whenever it has a match. -/
def override_company_classification (company_name : Str) (llm_type llm_tier : Str) :
    Str × Str :=
  match get_company_classification company_name with
  | some known => (known.type, known.tier)
  | none => (llm_type, llm_tier)

/-- Python `\w` (ASCII part): the regex word-character class. -/
def isWordChar (c : Char) : Bool := c.isAlphanum || c == '_'

/-- A `\b` word boundary next to a word character: the neighbour must be
absent or a non-word character. -/
def boundaryOk : Option Char → Bool
  | none => true
  | some c => !isWordChar c

/-- Scan for a `\b alias \b` occurrence, tracking the previous character. -/
def aliasBoundaryAux (al : Str) (prev : Option Char) : Str → Bool
  | [] => boundaryOk prev && startsWithL al []
  | c :: rest =>
    (boundaryOk prev && startsWithL al (c :: rest) &&
        boundaryOk (((c :: rest).drop al.length).head?)) ||
      aliasBoundaryAux al (some c) rest

/-- `re.search(rf"\b{re.escape(alias)}\b", text)` viewed as a Boolean. -/
def hasBoundaryMatch (al text : Str) : Bool := aliasBoundaryAux al none text

/-- Python `str.title()` (ASCII): uppercase a letter that follows a
non-letter, lowercase the other letters. -/
def pyTitleGo : Bool → Str → Str
  | _, [] => []
  | prevAlpha, c :: rest =>
    (if prevAlpha then c.toLower else c.toUpper) :: pyTitleGo c.isAlpha rest

/-- Python `str.title()`. -/
def pyTitle (s : Str) : Str := pyTitleGo false s

/-- The heuristic capture class `[a-zA-Z0-9\&\-. ]`. -/
def isClassChar (c : Char) : Bool :=
  c.isAlpha || c.isDigit || c == '&' || c == '-' || c == '.' || c == ' '

/-- `\s+` (greedy): requires at least one whitespace character. -/
def pySpaces1 : Str → Option Str
  | [] => none
  | c :: rest =>
    if isPySpace c then some (List.dropWhile isPySpace (c :: rest)) else none

/-- The capture group `([A-Z][a-zA-Z0-9\&\-. ]+)` with nothing after it:
takes the maximal run. -/
def capAfter : Str → Option Str
  | [] => none
  | c :: rest =>
    if c.isUpper then
      let run := rest.takeWhile isClassChar
      if run.isEmpty then none else some (c :: run)
    else none

/-- One attempt of `\b<lit>\s+([A-Z][a-zA-Z0-9\&\-. ]+)` at this position. -/
def litSpacesCapAt (lit : Str) (prev : Option Char) (cs : Str) : Option Str :=
  if boundaryOk prev && startsWithL lit cs then
    match pySpaces1 (cs.drop lit.length) with
    | some rest => capAfter rest
    | none => none
  else none

/-- The tail `\s+is\s+<word>\b` following a capture. -/
def isWordTail (word : Str) (cs : Str) : Bool :=
  match pySpaces1 cs with
  | none => false
  | some r1 =>
    startsWithL (str "is") r1 &&
      (match pySpaces1 (r1.drop 2) with
       | none => false
       | some r2 => startsWithL word r2 && boundaryOk ((r2.drop word.length).head?))

/-- Greedy backtracking over the capture length, longest first (regex `+` is
greedy, and the tail is retried on ever shorter captures, minimum one class
character). -/
def tryCapLens (c : Char) (run rest : Str) (word : Str) : Nat → Option Str
  | 0 => none
  | k + 1 =>
    if isWordTail word (rest.drop (k + 1)) then some (c :: run.take (k + 1))
    else tryCapLens c run rest word k

/-- One attempt of `\b([A-Z][a-zA-Z0-9\&\-. ]+)\s+is\s+<word>\b` at this
position. -/
def capWordAt (word : Str) (prev : Option Char) (cs : Str) : Option Str :=
  match cs with
  | [] => none
  | c :: rest =>
    if boundaryOk prev && c.isUpper then
      let run := rest.takeWhile isClassChar
      if run.isEmpty then none else tryCapLens c run rest word run.length
    else none

/-- `re.search` for a heuristic pattern: try every position left to right,
tracking the previous character for `\b`. -/
def searchPat (step : Option Char → Str → Option Str) : Option Char → Str → Option Str
  | prev, [] => step prev []
  | prev, c :: rest =>
    match step prev (c :: rest) with
    | some r => some r
    | none => searchPat step (some c) rest

/-- Python `str.strip()` (ASCII whitespace). -/
def pyStrip (s : Str) : Str :=
  ((s.dropWhile isPySpace).reverse.dropWhile isPySpace).reverse

/-- `extract_company_name`: phase 1 scans the registry for a word-boundary
alias match in the lower-cased text and returns the title-cased canonical
name; phase 2 falls back to the ordered heuristic patterns
About / is seeking / join / is hiring on the original text. -/
def extract_company_name (jd_text : Str) : Option Str :=
  let text := pyLower jd_text
  match COMPANY_DATABASE.find? (fun p =>
      p.2.aliases.any fun al => hasBoundaryMatch (pyLower al) text) with
  | some p => some (pyTitle p.1)
  | none =>
    match searchPat (litSpacesCapAt (str "About")) none jd_text with
    | some cap => some (pyStrip cap)
    | none =>
      match searchPat (capWordAt (str "seeking")) none jd_text with
      | some cap => some (pyStrip cap)
      | none =>
        match searchPat (litSpacesCapAt (str "join")) none jd_text with
        | some cap => some (pyStrip cap)
        | none =>
          match searchPat (capWordAt (str "hiring")) none jd_text with
          | some cap => some (pyStrip cap)
          | none => none

/-! ## Deep-pass deterministic helpers (`app/services/pass2_deep.py`) -/

/-- `extract_experience_requirement`: bucket the experience requirement by
substring scan of the lower-cased JD text. -/
def extract_experience_requirement (jd_text : Str) : Str :=
  let jd_lower := pyLower jd_text
  if containsSub (str "fresher") jd_lower || containsSub (str "0-1") jd_lower ||
      containsSub (str "0 - 1") jd_lower then
    str "0-1 Years (Fresher-friendly)"
  else if containsSub (str "1-2") jd_lower || containsSub (str "1 - 2") jd_lower ||
      containsSub (str "0-2") jd_lower then
    str "1-2 Years (Early career)"
  else if containsSub (str "2-4") jd_lower || containsSub (str "2 - 4") jd_lower ||
      containsSub (str "3-5") jd_lower then
    str "2-5 Years (Mid-level)"
  else if containsSub (str "5-8") jd_lower || containsSub (str "5-7") jd_lower ||
      containsSub (str "6-8") jd_lower then
    str "5-8 Years (Senior)"
  else if containsSub (str "8-10") jd_lower || containsSub (str "10+") jd_lower ||
      containsSub (str "8+") jd_lower then
    str "8+ Years (Lead/Principal)"
  else
    str "Not explicitly specified"

/-- `determine_fresher_alignment`: fixed substring rules on the extracted
experience bucket, with Service companies defaulting to Good when the
experience is unspecified. -/
def determine_fresher_alignment (required_exp : Str) (company_type : Str) : Str :=
  if containsSub (str "Fresher") required_exp || containsSub (str "0-1") required_exp ||
      containsSub (str "1-2") required_exp then
    str "Good"
  else if containsSub (str "2-5") required_exp then
    str "Poor"
  else if containsSub (str "5-8") required_exp || containsSub (str "8+") required_exp ||
      containsSub (str "Senior") required_exp then
    str "Poor"
  else if company_type == str "Service" then
    str "Good"
  else
    str "Not Applicable"

/-- The C4 scenario input text. -/
def tcs_jd_text : Str :=
  str "TCS is hiring freshers, 0-1 years experience, bond of 2 years required"

/-! ## Response schemas (`app/schemas.py`) -/

/-- `Company` schema. -/
structure Company where
  name : Str
  type : Str
  context : Str

/-- `Understanding` schema. -/
structure Understanding where
  company : Company
  role_reality : Str

/-- `ExperienceFit` schema. -/
structure ExperienceFit where
  required_experience : Str
  fresher_alignment : Str
  explanation : Str

/-- `CareerImplications` schema. -/
structure CareerImplications where
  skills_you_will_build : List Str
  skills_you_may_miss : List Str
  long_term_impact : Str

/-- `RiskAndTradeoffs` schema. -/
structure RiskAndTradeoffs where
  risk_level : Str
  key_concerns : List Str
  good_for : Str
  avoid_if : Str

/-- `DecisionGuidance` schema. -/
structure DecisionGuidance where
  recommendation : Str
  reasoning : Str
  what_to_do_instead : Str

/-- `ResumeGuidance` schema (also models the `resume_guidance` dict of
`QuickPassResult`, whose only consulted key is `ats_optimized_bullets`). -/
structure ResumeGuidance where
  ats_optimized_bullets : List Str

/-- `Confidence` schema. -/
structure Confidence where
  overall_confidence : ℚ

/-- `FinalAnalysisResponse` schema. -/
structure FinalAnalysisResponse where
  understanding : Understanding
  experience_fit : ExperienceFit
  career_implications : CareerImplications
  risk_and_tradeoffs : RiskAndTradeoffs
  decision_guidance : DecisionGuidance
  resume_guidance : ResumeGuidance
  confidence : Confidence

/-- `CandidateInsights` schema. -/
structure CandidateInsights where
  what_they_discover : Str
  growth_potential : Str
  work_life_balance : Str
  learning_opportunities : Str

/-- `RiskAssessment` schema. -/
structure RiskAssessment where
  risk_level : Str
  concerns : List Str
  positives : List Str

/-- `LLMExplanations` schema: provider-sourced explanatory text, all fields
defaulting to empty. -/
structure LLMExplanations where
  company_context : Str
  required_experience : Str
  role_reality : Str
  experience_explanation : Str
  skills_you_will_build : List Str
  skills_you_may_miss : List Str
  long_term_impact : Str
  key_concerns : List Str
  good_for : Str
  avoid_if : Str
  reasoning : Str
  what_to_do_instead : Str

/-- `QuickPassResult` schema. -/
structure QuickPassResult where
  company_name : Option Str
  company_type : Str
  company_tier : Str
  advertised_ctc : Option Str
  risk_signals_detected : List Str
  risk_trigger : Bool
  resume_guidance : ResumeGuidance
  candidate_insights : CandidateInsights
  risk_assessment : RiskAssessment
  llm_explanations : LLMExplanations
  confidence_score : ℚ
  confidence_breakdown : ConfidenceBreakdown
  final_verdict : Str
  analysis_source : Str

/-! ## Resume bullets (`app/services/resume_bullets.py`) -/

/-- `generate_resume_bullets`: keyword-triggered templates
(backend / frontend / fullstack / data / devops / qa), generic default. -/
def generate_resume_bullets (jd_text : Str) : List Str :=
  let jd_lower := pyLower jd_text
  let is_backend := [str "backend", str "api", str "microservices", str "database",
    str "sql"].any fun kw => containsSub kw jd_lower
  let is_frontend := [str "frontend", str "react", str "angular", str "vue", str "ui",
    str "ux"].any fun kw => containsSub kw jd_lower
  let is_fullstack := [str "full stack", str "fullstack",
    str "full-stack"].any fun kw => containsSub kw jd_lower
  let is_data := [str "data", str "analytics", str "machine learning", str "ml",
    str "ai"].any fun kw => containsSub kw jd_lower
  let is_devops := [str "devops", str "cloud", str "aws", str "azure",
    str "kubernetes", str "docker"].any fun kw => containsSub kw jd_lower
  let is_qa := [str "qa", str "quality", str "testing",
    str "test automation"].any fun kw => containsSub kw jd_lower
  if is_backend then
    [str "Designed and implemented RESTful APIs serving 10K+ requests/day with 99.9% uptime",
     str "Optimized database queries reducing average response time by 40% through indexing and query restructuring",
     str "Built microservices architecture enabling independent deployment and horizontal scaling"]
  else if is_frontend then
    [str "Developed responsive web interfaces using React/Vue achieving 95+ Lighthouse performance scores",
     str "Implemented component-based architecture reducing code duplication by 30% across the application",
     str "Collaborated with UX team to improve user engagement metrics by 25% through iterative design improvements"]
  else if is_fullstack then
    [str "Built end-to-end features from database design to frontend implementation, reducing development cycles by 20%",
     str "Integrated third-party APIs and payment gateways handling 1000+ daily transactions securely",
     str "Maintained 85% code coverage through comprehensive unit and integration testing"]
  else if is_data then
    [str "Developed data pipelines processing 1M+ records daily using Python and SQL for business analytics",
     str "Built predictive models achieving 85% accuracy, enabling data-driven decision making",
     str "Created interactive dashboards visualizing key metrics for stakeholder reporting"]
  else if is_devops then
    [str "Implemented CI/CD pipelines reducing deployment time from hours to minutes with automated testing",
     str "Managed cloud infrastructure on AWS/Azure supporting 99.9% application availability",
     str "Containerized applications using Docker and Kubernetes for consistent development and production environments"]
  else if is_qa then
    [str "Developed automated test suites covering 500+ test cases, reducing regression testing time by 60%",
     str "Implemented API testing framework using Postman/RestAssured ensuring 100% endpoint coverage",
     str "Collaborated with development team to identify and resolve 200+ bugs before production release"]
  else
    [str "Developed and maintained scalable software components aligned with product requirements and best practices",
     str "Applied problem-solving skills to design efficient algorithms, improving system performance by 25%",
     str "Collaborated with cross-functional teams to deliver features on time with comprehensive documentation"]

/-! ## Deep-pass composer (`app/services/pass2_deep.py`) -/

/-- `COMPANY_CONTEXT.get(company_type, COMPANY_CONTEXT["Unknown"])`. -/
def COMPANY_CONTEXT_get (company_type : Str) : Str :=
  if company_type == str "Product" then
    str "Product companies build and sell their own software. Engineers typically work on core product features, have more ownership, and see direct impact of their work. Career growth often depends on technical depth and product impact."
  else if company_type == str "Service" then
    str "Service companies deliver projects for other businesses. Work varies by client assignment—you may work on different technologies across projects. Career growth often involves client management and broader exposure, but less depth in any single domain."
  else if company_type == str "Startup" then
    str "Startups are early-stage companies with high uncertainty but potentially high reward. Expect fast pace, broad responsibilities, and less structure. Good for learning quickly, but job security and mentorship may be limited."
  else if company_type == str "Captive" then
    str "Captive centers are offshore R&D units of foreign companies. Work is often stable and well-structured, but you may be distant from core business decisions. Good for work-life balance; growth depends on parent company culture."
  else
    str "Unable to determine company type from the job description. Research the company independently—check LinkedIn, Glassdoor, and speak to current employees before applying."

/-- A company-type keyed career-implications template. -/
structure CareerTemplate where
  skills_you_will_build : List Str
  skills_you_may_miss : List Str
  long_term_impact : Str

/-- `generate_career_implications` (the `role_clarity` parameter is accepted
but unused, as in the source). -/
def generate_career_implications (company_type : Str) (role_clarity : ℚ) :
    CareerTemplate :=
  if company_type == str "Product" then
    { skills_you_will_build :=
        [str "Deep product thinking and user empathy",
         str "Ownership of features end-to-end",
         str "Technical depth in specific domains"]
      skills_you_may_miss :=
        [str "Client-facing communication",
         str "Broad technology exposure",
         str "Project management across contexts"]
      long_term_impact := str "Strong foundation for product engineering roles. Easier transitions to other product companies or startups. May require deliberate effort to broaden technology stack." }
  else if company_type == str "Service" then
    { skills_you_will_build :=
        [str "Adaptability across different projects",
         str "Client communication and requirements gathering",
         str "Exposure to diverse technologies"]
      skills_you_may_miss :=
        [str "Deep ownership of a single product",
         str "Long-term architectural decisions",
         str "Direct user feedback loops"]
      long_term_impact := str "Broad exposure but potentially shallow depth. Transitioning to product companies later may require demonstrating depth through side projects or open source contributions." }
  else if company_type == str "Startup" then
    { skills_you_will_build :=
        [str "End-to-end ownership and scrappiness",
         str "Fast learning and adaptability",
         str "Wearing multiple hats (dev, ops, sometimes PM)"]
      skills_you_may_miss :=
        [str "Structured mentorship and code review culture",
         str "Large-scale system design experience",
         str "Process-driven engineering practices"]
      long_term_impact := str "Great for learning quickly and building a broad skill set. May need to seek structured environments later to deepen specific expertise. Startup experience is valued but stability matters too." }
  else if company_type == str "Captive" then
    { skills_you_will_build :=
        [str "Structured engineering practices",
         str "Collaboration with global teams",
         str "Domain expertise in parent company\x27s area"]
      skills_you_may_miss :=
        [str "Product ownership and roadmap influence",
         str "Startup-style scrappiness",
         str "Local market understanding"]
      long_term_impact := str "Stable career path with good work-life balance. Growth depends on parent company\x27s investment in the India center. May feel distant from core business decisions." }
  else
    { skills_you_will_build := [str "Unable to determine without more context"]
      skills_you_may_miss := [str "Unable to determine without more context"]
      long_term_impact := str "Research the company independently before making a decision. Understanding the company type is important for career planning." }

/-- `generate_role_reality`: role-pattern detection over the lower-cased
text, then company-type fallbacks. -/
def generate_role_reality (jd_text : Str) (company_type : Str)
    (risk_signals : List Str) : Str :=
  let jd_lower := pyLower jd_text
  let is_qa_role := [str "qa", str "quality assurance", str "testing",
    str "test automation"].any fun kw => containsSub kw jd_lower
  let is_support_role := [str "support", str "l1", str "l2", str "incident",
    str "helpdesk"].any fun kw => containsSub kw jd_lower
  let is_migration_role := [str "migration", str "legacy", str "modernization",
    str "transformation"].any fun kw => containsSub kw jd_lower
  let is_consulting_role := [str "consultant", str "advisory",
    str "pre-sales"].any fun kw => containsSub kw jd_lower
  if is_qa_role then
    str "This role focuses on quality assurance and testing rather than core development. Day-to-day work likely involves writing test cases, automation scripts, and coordinating with development teams. If you want to build products, this may not be the right path."
  else if is_support_role then
    str "This is primarily a support or operations role. Expect to handle tickets, troubleshoot issues, and work in shifts. Technical learning may be limited to the systems you support. Not ideal if you want to build new things."
  else if is_migration_role then
    str "This role involves migrating or maintaining existing systems rather than building new features. Work may feel repetitive and focused on legacy code. Good for stability but may limit exposure to modern architectures."
  else if is_consulting_role then
    str "This is a client-facing consulting role. Expect presentations, requirement gathering, and project coordination. Less hands-on coding than engineering roles. Good if you enjoy communication; less ideal for deep technical growth."
  else if company_type == str "Service" && !risk_signals.isEmpty then
    str "This appears to be a client-delivery role where your work depends on project allocation. Actual responsibilities may differ from what\x27s advertised. Clarify the specific project and tech stack during interviews."
  else if company_type == str "Product" then
    str "This role involves working on the company\x27s own product. Expect ownership of features, collaboration with product teams, and visible impact. Good environment for engineering depth and product thinking."
  else
    str "Based on the job description, this appears to be a general engineering role. Clarify specific responsibilities, team structure, and projects during the interview process to understand what you\x27ll actually be doing."

/-- `run_deep_pass` from `app/services/pass2_deep.py`: deterministic
decisions (recommendation, risk level, fresher alignment) merged with
provider explanations or template fallbacks into the final response.
`list(set(...))` on key concerns is modelled as order-preserving dedup, and
the `hasattr` guard on `confidence_breakdown` is always true for the schema
and is dropped. -/
def run_deep_pass (jd_text : Str) (quick : QuickPassResult) : FinalAnalysisResponse :=
  let llm := quick.llm_explanations
  let required_exp := extract_experience_requirement jd_text
  let fresher_alignment := determine_fresher_alignment required_exp quick.company_type
  let decision := interpret_decision quick.company_type
    (some quick.risk_signals_detected) (some required_exp)
  let company_context := COMPANY_CONTEXT_get quick.company_type
  let role_reality :=
    if llm.role_reality.isEmpty then
      generate_role_reality jd_text quick.company_type quick.risk_signals_detected
    else llm.role_reality
  let template_career := generate_career_implications quick.company_type
    quick.confidence_breakdown.role_clarity
  let skills_build :=
    if llm.skills_you_will_build.isEmpty then template_career.skills_you_will_build
    else llm.skills_you_will_build
  let skills_miss :=
    if llm.skills_you_may_miss.isEmpty then template_career.skills_you_may_miss
    else llm.skills_you_may_miss
  let long_term :=
    if llm.long_term_impact.isEmpty then template_career.long_term_impact
    else llm.long_term_impact
  let fresher_explanation :=
    if !llm.experience_explanation.isEmpty then llm.experience_explanation
    else if fresher_alignment == str "Good" then
      str "This role appears suitable for freshers or early-career engineers. The experience requirements and role type suggest a reasonable starting point."
    else if fresher_alignment == str "Poor" then
      str "This role targets more experienced professionals. As a fresher, you may struggle to meet expectations or miss out on proper mentorship. Consider roles explicitly designed for early-career engineers."
    else
      str "The experience requirements are unclear. Research the role further and ask directly about the expected experience level during the application process."
  let good_for :=
    if !llm.good_for.isEmpty then llm.good_for
    else if quick.company_type == str "Product" then
      str "Engineers who want deep ownership, product impact, and technical depth."
    else if quick.company_type == str "Service" then
      str "Engineers comfortable with client work and seeking diverse project exposure."
    else if quick.company_type == str "Startup" then
      str "Self-starters who thrive in ambiguity and want to learn fast."
    else if quick.company_type == str "Captive" then
      str "Engineers seeking stability, global exposure, and work-life balance."
    else str "Unclear without more information about the company."
  let avoid_if :=
    if !llm.avoid_if.isEmpty then llm.avoid_if
    else if quick.company_type == str "Product" then
      str "You prefer variety across projects or want broad technology exposure."
    else if quick.company_type == str "Service" then
      str "You want deep product ownership or dislike project-based assignments."
    else if quick.company_type == str "Startup" then
      str "You need structured mentorship or job security is a priority."
    else if quick.company_type == str "Captive" then
      str "You want to influence product direction or prefer fast-moving environments."
    else str "You are risk-averse and prefer clarity before committing."
  let key_concerns0 := llm.key_concerns
  let key_concerns1 :=
    if quick.risk_signals_detected.isEmpty then key_concerns0
    else (key_concerns0 ++ quick.risk_signals_detected).eraseDups
  let key_concerns :=
    if key_concerns1.isEmpty then [str "No major concerns detected"] else key_concerns1
  let reasoning := if llm.reasoning.isEmpty then decision.reasoning else llm.reasoning
  let what_to_do :=
    if llm.what_to_do_instead.isEmpty then decision.what_to_do_instead
    else llm.what_to_do_instead
  let ats_bullets0 := quick.resume_guidance.ats_optimized_bullets
  let ats_bullets1 :=
    if ats_bullets0.isEmpty || ats_bullets0.length < 3 then
      generate_resume_bullets jd_text
    else ats_bullets0
  let ats_bullets2 := ats_bullets1.take 3
  let ats_bullets := ats_bullets2 ++ List.replicate (3 - ats_bullets2.length)
    (str "Developed software solutions following industry best practices")
  { understanding :=
      { company :=
          { name :=
              match quick.company_name with
              | some n => if n.isEmpty then str "Unknown" else n
              | none => str "Unknown"
            type :=
              if quick.company_type == str "Product" ||
                  quick.company_type == str "Service" ||
                  quick.company_type == str "Startup" ||
                  quick.company_type == str "Captive" then
                quick.company_type
              else str "Unknown"
            context := company_context }
        role_reality := role_reality }
    experience_fit :=
      { required_experience := required_exp
        fresher_alignment := fresher_alignment
        explanation := fresher_explanation }
    career_implications :=
      { skills_you_will_build := skills_build
        skills_you_may_miss := skills_miss
        long_term_impact := long_term }
    risk_and_tradeoffs :=
      { risk_level := decision.risk_level
        key_concerns := key_concerns
        good_for := good_for
        avoid_if := avoid_if }
    decision_guidance :=
      { recommendation := decision.recommendation
        reasoning := reasoning
        what_to_do_instead := what_to_do }
    resume_guidance := { ats_optimized_bullets := ats_bullets }
    confidence := { overall_confidence := quick.confidence_score } }

/-- A quick-pass result with empty provider output except the given bullets,
used to instantiate the bullet-count theorem. -/
def sample_quick (bullets : List Str) : QuickPassResult :=
  { company_name := none
    company_type := str "Product"
    company_tier := str "Unknown"
    advertised_ctc := none
    risk_signals_detected := []
    risk_trigger := false
    resume_guidance := ⟨bullets⟩
    candidate_insights := ⟨[], str "Unknown", str "Unknown", []⟩
    risk_assessment := ⟨str "Unknown", [], []⟩
    llm_explanations := ⟨[], [], [], [], [], [], [], [], [], [], [], []⟩
    confidence_score := 0
    confidence_breakdown := ⟨0, 0, 0, 0⟩
    final_verdict := []
    analysis_source := [] }

/-! ## Provider adapter fallback (`app/ai/openai_client.py`) -/

/-- The `company_classification` block of a provider analysis dict. -/
structure ProviderCompanyClassification where
  company_type : Str
  tier : Str
  industry : Str

/-- The `role_analysis` block of a provider analysis dict. -/
structure ProviderRoleAnalysis where
  clarity_score : ℚ
  seniority_level : Str
  key_skills : List Str
  red_flags : List Str

/-- The `_meta` provenance block. -/
structure ProviderMeta where
  source : Str
  model : Option Str

/-- The provider analysis dict shape shared by success, mock, and fallback
paths. -/
structure ProviderAnalysis where
  company_classification : ProviderCompanyClassification
  role_analysis : ProviderRoleAnalysis
  ats_optimized_bullets : List Str
  candidate_insights : CandidateInsights
  risk_assessment : RiskAssessment
  meta : ProviderMeta

/-- `_get_fallback_analysis`: the degraded object with every field set to a
neutral/unknown default and the failure reason recorded as `_meta.source`
(the `company_name` argument is accepted but unused, as in the source). -/
def get_fallback_analysis (company_name : Option Str) (reason : Str) :
    ProviderAnalysis :=
  { company_classification := ⟨str "Unknown", str "Unknown", str "Unknown"⟩
    role_analysis := ⟨0.5, str "Unknown", [], []⟩
    ats_optimized_bullets :=
      [str "Developed software solutions following industry best practices",
       str "Collaborated with teams to deliver quality products",
       str "Applied problem-solving skills to technical challenges"]
    candidate_insights :=
      ⟨str "Unable to analyze. Research the company independently.",
       str "Unknown", str "Unknown", str "Unknown"⟩
    risk_assessment := ⟨str "Unknown", [str "Analysis unavailable"], []⟩
    meta := ⟨reason, none⟩ }

/-- The `json.JSONDecodeError` branch of `analyze_jd_with_openai`: when the
response text fails to parse as JSON (after the regex/code-fence stripping
attempts), the adapter returns `_get_fallback_analysis(company_name,
"json_parse_error")`; no exception propagates — the handler is total. -/
def analyze_jd_parse_failure (company_name : Option Str) : ProviderAnalysis :=
  get_fallback_analysis company_name (str "json_parse_error")

theorem startsWithL_iff (n h : Str) : startsWithL n h = true ↔ ∃ t, h = n ++ t := by
  induction n generalizing h with
  | nil => simp [startsWithL]
  | cons a as ih =>
    cases h with
    | nil => simp [startsWithL]
    | cons b bs =>
      simp only [startsWithL, Bool.and_eq_true, beq_iff_eq, ih, List.cons_append,
        List.cons.injEq]
      constructor
      · rintro ⟨hab, t, ht⟩
        exact ⟨t, hab.symm, ht⟩
      · rintro ⟨t, hab, ht⟩
        exact ⟨hab.symm, t, ht⟩

theorem containsSub_iff (n h : Str) : containsSub n h = true ↔ OccursIn n h := by
  induction h with
  | nil =>
    simp only [containsSub, startsWithL_iff, OccursIn]
    constructor
    · rintro ⟨t, ht⟩
      exact ⟨[], t, by simpa using ht⟩
    · rintro ⟨p, s, hps⟩
      have h2 := List.append_eq_nil.mp hps.symm
      have h3 := List.append_eq_nil.mp h2.2
      exact ⟨[], by simp [h3.1]⟩
  | cons c rest ih =>
    simp only [containsSub, Bool.or_eq_true, startsWithL_iff, ih, OccursIn]
    constructor
    · rintro (⟨t, ht⟩ | ⟨p, s, hps⟩)
      · exact ⟨[], t, by simpa using ht⟩
      · exact ⟨c :: p, s, by simp [hps]⟩
    · rintro ⟨p, s, hps⟩
      cases p with
      | nil => exact Or.inl ⟨s, by simpa using hps⟩
      | cons d p' =>
        simp only [List.cons_append] at hps
        injection hps with hc hrest
        exact Or.inr ⟨p', s, hrest⟩

theorem OccursIn.trans {a b c : Str} (h₁ : OccursIn a b) (h₂ : OccursIn b c) :
    OccursIn a c := by
  obtain ⟨p₁, s₁, e₁⟩ := h₁
  obtain ⟨p₂, s₂, e₂⟩ := h₂
  exact ⟨p₂ ++ p₁, s₁ ++ s₂, by simp [e₂, e₁]⟩

theorem occursIn_pyJoin_of_mem {x : Str} {sep : Str} {l : List Str} (h : x ∈ l) :
    OccursIn x (pyJoin sep l) := by
  induction l with
  | nil => cases h
  | cons y ys ih =>
    cases ys with
    | nil =>
      rw [List.mem_singleton] at h
      subst h
      exact ⟨[], [], by simp [pyJoin]⟩
    | cons z zs =>
      rcases List.mem_cons.mp h with rfl | hmem
      · exact ⟨[], sep ++ pyJoin sep (z :: zs), by simp [pyJoin]⟩
      · obtain ⟨p, s, hps⟩ := ih hmem
        exact ⟨y ++ sep ++ p, s, by simp [pyJoin, hps]⟩

/-- C9: `interpret_decision` is a pure function of
(companyType, riskSignalSet, requiredExperience): two calls with identical
arguments return identical decision objects in all four fields.  Purity with
respect to hidden state holds by construction of the shallow embedding — the
source consults no module state, I/O, or randomness. -/
theorem interpret_decision_pure (ct₁ ct₂ : Str) (r₁ r₂ : Option (List Str))
    (e₁ e₂ : Option Str) (hct : ct₁ = ct₂) (hr : r₁ = r₂) (he : e₁ = e₂) :
    interpret_decision ct₁ r₁ e₁ = interpret_decision ct₂ r₂ e₂ := by
  subst hct; subst hr; subst he; rfl

/-- Witness for C9 at concrete arguments. -/
theorem interpret_decision_pure_witness :
    interpret_decision (str "Service") (some [str "bond"]) (some (str "fresher role")) =
      interpret_decision (str "Service") (some [str "bond"]) (some (str "fresher role")) :=
  interpret_decision_pure _ _ _ _ _ _ rfl rfl rfl

/-- C10: `interpret_decision` is total over every company-type string, risk
list (including `None`/empty), and experience string (including `None`/empty)
— in the embedding it returns a `Decision` record, whose type fixes exactly
the four keys `recommendation`, `risk_level`, `reasoning`,
`what_to_do_instead` — and recommendation and risk level are always paired:
Skip with High, Apply with Caution with Medium, Apply with Low. -/
theorem interpret_decision_pairing (ct : Str) (risks : Option (List Str))
    (exp : Option Str) :
    ((interpret_decision ct risks exp).recommendation = str "Skip" ↔
        (interpret_decision ct risks exp).risk_level = str "High") ∧
      ((interpret_decision ct risks exp).recommendation = str "Apply with Caution" ↔
        (interpret_decision ct risks exp).risk_level = str "Medium") ∧
      ((interpret_decision ct risks exp).recommendation = str "Apply" ↔
        (interpret_decision ct risks exp).risk_level = str "Low") := by
  simp only [interpret_decision]
  repeat' split
  all_goals decide

/-- C2: whenever rule 1 does not fire and some risk signal contains a
bond-related or payment-related keyword, the Decision Engine returns
Skip / High, regardless of company type — in particular it pre-empts every
later Apply-with-Caution rule (Service-with-risks, Startup-unclear,
Service-default), since rule 2 is evaluated before them. -/
theorem bond_payment_risks_skip (ct : Str) (risks : List Str) (exp : Option Str)
    (h1 : rule1Cond ct (expLowerOf exp) = false)
    (h2 : risks.any
        (fun r => (bond_keywords ++ payment_keywords).any
          fun kw => containsSub kw (pyLower r)) = true) :
    (interpret_decision ct (some risks) exp).recommendation = str "Skip" ∧
      (interpret_decision ct (some risks) exp).risk_level = str "High" := by
  obtain ⟨r, hr, hkw⟩ := List.any_eq_true.mp h2
  obtain ⟨kw, hkwmem, hsub⟩ := List.any_eq_true.mp hkw
  have hocc : OccursIn kw (pyLower r) := (containsSub_iff _ _).mp hsub
  have hjoin : OccursIn (pyLower r) (pyJoin (str " ") (risks.map pyLower)) :=
    occursIn_pyJoin_of_mem (List.mem_map_of_mem _ hr)
  have hcs : containsSub kw (pyJoin (str " ") (risks.map pyLower)) = true :=
    (containsSub_iff _ _).mpr (hocc.trans hjoin)
  have h2' : rule2Cond (risksLowerOf (some risks)) = true := by
    unfold rule2Cond risksLowerOf
    rcases List.mem_append.mp hkwmem with hb | hp
    · exact Bool.or_eq_true _ _ |>.mpr (Or.inl (List.any_eq_true.mpr ⟨kw, hb, hcs⟩))
    · exact Bool.or_eq_true _ _ |>.mpr (Or.inr (List.any_eq_true.mpr ⟨kw, hp, hcs⟩))
  simp [interpret_decision, h1, h2']

/-- Witness for C2: a Service posting with a bond risk and unspecified
experience, where rules 4 and 6 would also match, still yields Skip / High. -/
theorem bond_payment_risks_skip_witness :
    (interpret_decision (str "Service") (some [str "bond"])
        (some (str "not specified"))).recommendation = str "Skip" ∧
      (interpret_decision (str "Service") (some [str "bond"])
        (some (str "not specified"))).risk_level = str "High" :=
  bond_payment_risks_skip _ _ _ (by decide) (by decide)

theorem pyRound2_unit {q : ℚ} (h0 : 0 ≤ q) (h1 : q ≤ 1) :
    0 ≤ pyRound2 q ∧ pyRound2 q ≤ 1 := by
  unfold pyRound2
  rw [round_eq]
  constructor
  · have h : (0 : ℤ) ≤ ⌊q * 100 + 1 / 2⌋ := Int.le_floor.mpr (by push_cast; linarith)
    have h' : (0 : ℚ) ≤ (⌊q * 100 + 1 / 2⌋ : ℚ) := by exact_mod_cast h
    linarith
  · have h : ⌊q * 100 + 1 / 2⌋ < (101 : ℤ) := Int.floor_lt.mpr (by push_cast; linarith)
    have h' : (⌊q * 100 + 1 / 2⌋ : ℚ) ≤ 100 := by exact_mod_cast Int.lt_add_one_iff.mp h
    rw [div_le_one (by norm_num)]
    exact h'

theorem pyRound2_int {q : ℚ} (k : ℤ) (hk : q * 100 = (k : ℚ)) : pyRound2 q = q := by
  unfold pyRound2
  rw [hk, round_intCast, div_eq_iff (by norm_num : (100 : ℚ) ≠ 0)]
  exact hk.symm

theorem pyRound2_risk (n : ℕ) :
    pyRound2 (max 0.2 (1.0 - ((n : ℚ) * 0.15))) = max 0.2 (1.0 - ((n : ℚ) * 0.15)) := by
  rcases le_total (1.0 - ((n : ℚ) * 0.15)) 0.2 with h | h
  · rw [max_eq_left h]
    exact pyRound2_int 20 (by norm_num)
  · rw [max_eq_right h]
    apply pyRound2_int (100 - 15 * n)
    push_cast; ring

theorem companyRecognitionOf_bounds (company_name : Option Str) :
    0.3 ≤ companyRecognitionOf company_name ∧ companyRecognitionOf company_name ≤ 1 := by
  unfold companyRecognitionOf
  split <;> norm_num

theorem TIER_SCORES_get_bounds (company_tier : Str) :
    0.4 ≤ TIER_SCORES_get company_tier ∧ TIER_SCORES_get company_tier ≤ 1 := by
  unfold TIER_SCORES_get
  repeat' split
  all_goals norm_num

/-- C3: for every company name (present or absent), tier string, risk-signal
list, and role-clarity rational, the overall confidence returned by
`calculate_confidence_score` lies in [0,1], and the risk-penalty component of
the breakdown equals max(0.2, 1.0 − 0.15 × |risk signals|), which never drops
below 0.2 regardless of how many risk signals there are. -/
theorem confidence_score_unit_range (company_name : Option Str) (company_type : Str)
    (company_tier : Str) (risk_signals : List Str) (role_clarity : ℚ) :
    0 ≤ (calculate_confidence_score company_name company_type company_tier
        risk_signals role_clarity).1 ∧
      (calculate_confidence_score company_name company_type company_tier
        risk_signals role_clarity).1 ≤ 1 ∧
      (calculate_confidence_score company_name company_type company_tier
          risk_signals role_clarity).2.risk_signals =
        max 0.2 (1.0 - 0.15 * (risk_signals.length : ℚ)) := by
  simp only [calculate_confidence_score]
  have hcr := companyRecognitionOf_bounds company_name
  have hts := TIER_SCORES_get_bounds company_tier
  have hrp1 : (0.2 : ℚ) ≤ max 0.2 (1.0 - ((risk_signals.length : ℚ) * 0.15)) :=
    le_max_left _ _
  have hrp2 : max 0.2 (1.0 - ((risk_signals.length : ℚ) * 0.15)) ≤ 1 := by
    apply max_le (by norm_num)
    have : (0 : ℚ) ≤ (risk_signals.length : ℚ) * 0.15 := by positivity
    linarith
  have hrc1 : (0 : ℚ) ≤ min 1.0 (max 0.0 role_clarity) :=
    le_min (by norm_num) ((by norm_num : (0 : ℚ) ≤ 0.0).trans (le_max_left _ _))
  have hrc2 : min 1.0 (max 0.0 role_clarity) ≤ 1 :=
    (min_le_left _ _).trans (by norm_num : (1.0 : ℚ) ≤ 1)
  have hsum0 : (0 : ℚ) ≤ companyRecognitionOf company_name * 0.25 +
      max 0.2 (1.0 - ((risk_signals.length : ℚ) * 0.15)) * 0.30 +
      min 1.0 (max 0.0 role_clarity) * 0.25 + TIER_SCORES_get company_tier * 0.20 := by
    linarith [hcr.1, hts.1]
  have hsum1 : companyRecognitionOf company_name * 0.25 +
      max 0.2 (1.0 - ((risk_signals.length : ℚ) * 0.15)) * 0.30 +
      min 1.0 (max 0.0 role_clarity) * 0.25 + TIER_SCORES_get company_tier * 0.20 ≤ 1 := by
    linarith [hcr.2, hts.2]
  refine ⟨(pyRound2_unit hsum0 hsum1).1, (pyRound2_unit hsum0 hsum1).2, ?_⟩
  rw [show (1.0 : ℚ) - 0.15 * (risk_signals.length : ℚ) =
      1.0 - ((risk_signals.length : ℚ) * 0.15) from by ring]
  exact pyRound2_risk _

theorem takeWhile_append_of_all {p : Char → Bool} {l₁ : Str} (l₂ : Str)
    (h : ∀ c ∈ l₁, p c = true) :
    (l₁ ++ l₂).takeWhile p = l₁ ++ l₂.takeWhile p ∧
      (l₁ ++ l₂).dropWhile p = l₂.dropWhile p := by
  induction l₁ with
  | nil => simp
  | cons a l ih =>
    have ha : p a = true := h a (List.mem_cons_self _ _)
    have ih' := ih fun c hc => h c (List.mem_cons_of_mem a hc)
    simp [List.takeWhile, List.dropWhile, ha, ih'.1, ih'.2]

theorem takeWhile_eq_nil_of_head {p : Char → Bool} {l : Str}
    (h : ∀ c, l.head? = some c → p c = false) :
    l.takeWhile p = [] ∧ l.dropWhile p = l := by
  cases l with
  | nil => simp
  | cons a t =>
    have := h a rfl
    simp [List.takeWhile, List.dropWhile, this]

theorem startsWithL_self_append (n rest : Str) : startsWithL n (n ++ rest) = true :=
  (startsWithL_iff n (n ++ rest)).mpr ⟨rest, rfl⟩

theorem startsWithL_append_false {n m : Str} (rest : Str)
    (h : startsWithL n m = false) (hlen : n.length ≤ m.length) :
    startsWithL n (m ++ rest) = false := by
  induction n generalizing m with
  | nil => simp [startsWithL] at h
  | cons a as ih =>
    cases m with
    | nil => simp at hlen
    | cons b bs =>
      simp only [startsWithL, Bool.and_eq_false_iff] at h
      rcases h with h | h
      · simp [startsWithL, h]
      · simp only [List.cons_append, startsWithL, Bool.and_eq_false_iff]
        exact Or.inr (ih h (by simpa using hlen))

theorem fracPart_split (r : Str) :
    r = (fracPart r).1 ++ (fracPart r).2 ∧
      ((fracPart r).1 = [] ∨
        ∃ d2, (fracPart r).1 = '.' :: d2 ∧ d2 ≠ [] ∧ ∀ c ∈ d2, c.isDigit = true) := by
  cases r with
  | nil => simp [fracPart]
  | cons c t =>
    by_cases hc : c = '.'
    · subst hc
      by_cases hd : (t.takeWhile Char.isDigit).isEmpty
      · simp [fracPart, hd]
      · refine ⟨?_, Or.inr ⟨t.takeWhile Char.isDigit, ?_, ?_, ?_⟩⟩
        · simp [fracPart, hd, List.takeWhile_append_dropWhile]
        · simp [fracPart, hd]
        · simpa [List.isEmpty_iff] using hd
        · exact fun c hc => List.mem_takeWhile_imp hc
    · simp [fracPart, hc]

theorem matchAt_some {cs s : Str} (h : matchAt cs = some s) :
    (∃ rest, cs = s ++ rest) ∧ CtcPattern s := by
  unfold matchAt at h
  by_cases hemp : (cs.takeWhile Char.isDigit).isEmpty
  · simp [hemp] at h
  · simp only [hemp, Bool.false_eq_true, if_false] at h
    set d1 := cs.takeWhile Char.isDigit with hd1def
    set r1 := cs.dropWhile Char.isDigit with hr1def
    set fr := fracPart r1 with hfrdef
    set sp := fr.2.takeWhile isPySpace with hspdef
    set r3 := fr.2.dropWhile isPySpace with hr3def
    have hd1ne : d1 ≠ [] := by simpa [List.isEmpty_iff] using hemp
    have hd1dig : ∀ c ∈ d1, c.isDigit = true := fun c hc => List.mem_takeWhile_imp hc
    have hcs : cs = d1 ++ r1 := (List.takeWhile_append_dropWhile _ _).symm
    have hfrsplit : r1 = fr.1 ++ fr.2 := (fracPart_split r1).1
    have hfrprop : fr.1 = [] ∨ ∃ d2, fr.1 = '.' :: d2 ∧ d2 ≠ [] ∧
        ∀ c ∈ d2, c.isDigit = true := (fracPart_split r1).2
    have hsp : ∀ c ∈ sp, isPySpace c = true := fun c hc => List.mem_takeWhile_imp hc
    have hfr2 : fr.2 = sp ++ r3 := (List.takeWhile_append_dropWhile _ _).symm
    split_ifs at h with h1 h2 h3 h4
    · injection h with h
      subst h
      obtain ⟨t, ht⟩ := (startsWithL_iff _ _).mp h1
      constructor
      · exact ⟨t, by rw [hcs, hfrsplit, hfr2, ht]; simp [List.append_assoc]⟩
      · exact ⟨d1, fr.1, sp, str "lpa", rfl, hd1ne, hd1dig, hfrprop, hsp, by decide⟩
    · injection h with h
      subst h
      obtain ⟨t, ht⟩ := (startsWithL_iff _ _).mp h2
      constructor
      · exact ⟨t, by rw [hcs, hfrsplit, hfr2, ht]; simp [List.append_assoc]⟩
      · exact ⟨d1, fr.1, sp, str "lakhs", rfl, hd1ne, hd1dig, hfrprop, hsp, by decide⟩
    · injection h with h
      subst h
      obtain ⟨t, ht⟩ := (startsWithL_iff _ _).mp h3
      constructor
      · exact ⟨t, by rw [hcs, hfrsplit, hfr2, ht]; simp [List.append_assoc]⟩
      · exact ⟨d1, fr.1, sp, str "lakh", rfl, hd1ne, hd1dig, hfrprop, hsp, by decide⟩
    · injection h with h
      subst h
      obtain ⟨t, ht⟩ := (startsWithL_iff _ _).mp h4
      constructor
      · exact ⟨t, by rw [hcs, hfrsplit, hfr2, ht]; simp [List.append_assoc]⟩
      · exact ⟨d1, fr.1, sp, str "ctc", rfl, hd1ne, hd1dig, hfrprop, hsp, by decide⟩

theorem isPySpace_not_digit {c : Char} (h : isPySpace c = true) : c.isDigit = false := by
  simp only [isPySpace, Bool.or_eq_true, beq_iff_eq] at h
  rcases h with ((((rfl | rfl) | rfl) | rfl) | rfl) | rfl <;> decide

theorem isPySpace_ne_dot {c : Char} (h : isPySpace c = true) : ¬ c = '.' := by
  simp only [isPySpace, Bool.or_eq_true, beq_iff_eq] at h
  rcases h with ((((rfl | rfl) | rfl) | rfl) | rfl) | rfl <;> decide

theorem startsWithL_take_false {n m : Str} (rest : Str)
    (h : startsWithL (n.take m.length) m = false) :
    startsWithL n (m ++ rest) = false := by
  induction n generalizing m with
  | nil => simp [startsWithL] at h
  | cons a as ih =>
    cases m with
    | nil => simp [startsWithL] at h
    | cons b bs =>
      simp only [List.length_cons, List.take_succ_cons, startsWithL,
        Bool.and_eq_false_iff] at h
      rcases h with h | h
      · simp [startsWithL, h]
      · simp only [List.cons_append, startsWithL, Bool.and_eq_false_iff]
        exact Or.inr (ih h)

theorem fracPart_eq_nofrac {r : Str} (h : ∀ c, r.head? = some c → ¬ c = '.') :
    fracPart r = ([], r) := by
  cases r with
  | nil => rfl
  | cons c t => simp [fracPart, h c rfl]

theorem fracPart_eq_frac {d2 X : Str} (hne : d2 ≠ [])
    (hdig : ∀ c ∈ d2, c.isDigit = true)
    (hX : ∀ c, X.head? = some c → c.isDigit = false) :
    fracPart ('.' :: (d2 ++ X)) = ('.' :: d2, X) := by
  have h1 := takeWhile_append_of_all (p := Char.isDigit) X hdig
  have h2 := takeWhile_eq_nil_of_head hX
  simp only [fracPart, if_pos rfl, h1.1, h1.2, h2.1, h2.2, List.append_nil]
  have : (d2.isEmpty = true) = False := by
    simp [List.isEmpty_iff, hne]
  simp [this]

theorem matchAt_pattern {s : Str} (hp : CtcPattern s) (rest : Str) :
    (matchAt (s ++ rest)).isSome = true := by
  obtain ⟨d1, frac, sp, u, hs, hd1ne, hd1dig, hfrac, hsp, hu⟩ := hp
  subst hs
  have hu_head : ∀ c, (u ++ rest).head? = some c →
      c.isDigit = false ∧ isPySpace c = false ∧ ¬ c = '.' := by
    rcases hu with rfl | rfl | rfl | rfl
    · intro c hc
      rw [show (str "lpa" ++ rest).head? = some 'l' from rfl] at hc
      injection hc with hc
      subst hc; exact ⟨by decide, by decide, by decide⟩
    · intro c hc
      rw [show (str "lakhs" ++ rest).head? = some 'l' from rfl] at hc
      injection hc with hc
      subst hc; exact ⟨by decide, by decide, by decide⟩
    · intro c hc
      rw [show (str "lakh" ++ rest).head? = some 'l' from rfl] at hc
      injection hc with hc
      subst hc; exact ⟨by decide, by decide, by decide⟩
    · intro c hc
      rw [show (str "ctc" ++ rest).head? = some 'c' from rfl] at hc
      injection hc with hc
      subst hc; exact ⟨by decide, by decide, by decide⟩
  have hX : ∀ c, (sp ++ (u ++ rest)).head? = some c → c.isDigit = false := by
    cases sp with
    | nil => exact fun c hc => (hu_head c hc).1
    | cons a sp' =>
      intro c hc
      rw [show ((a :: sp') ++ (u ++ rest)).head? = some a from rfl] at hc
      injection hc with hc
      subst hc
      exact isPySpace_not_digit (hsp a (List.mem_cons_self _ _))
  have hXdot : ∀ c, (sp ++ (u ++ rest)).head? = some c → ¬ c = '.' := by
    cases sp with
    | nil => exact fun c hc => (hu_head c hc).2.2
    | cons a sp' =>
      intro c hc
      rw [show ((a :: sp') ++ (u ++ rest)).head? = some a from rfl] at hc
      injection hc with hc
      subst hc
      exact isPySpace_ne_dot (hsp a (List.mem_cons_self _ _))
  have hspS : ∀ c ∈ sp, isPySpace c = true := hsp
  have hunit : ∀ c, (u ++ rest).head? = some c → isPySpace c = false :=
    fun c hc => (hu_head c hc).2.1
  have hd1emp : (d1.isEmpty = true) = False := by simp [List.isEmpty_iff, hd1ne]
  have hsptake := takeWhile_append_of_all (p := isPySpace) (u ++ rest) hspS
  have hsptail := takeWhile_eq_nil_of_head hunit
  have hunits : (matchAt (d1 ++ (sp ++ (u ++ rest)))).isSome = true := by
    have htw := takeWhile_append_of_all (p := Char.isDigit) (sp ++ (u ++ rest)) hd1dig
    have htw2 := takeWhile_eq_nil_of_head hX
    simp only [matchAt, htw.1, htw.2, htw2.1, htw2.2, List.append_nil, hd1emp,
      if_false, fracPart_eq_nofrac hXdot, hsptake.1, hsptake.2, hsptail.1,
      hsptail.2, List.append_nil]
    rcases hu with rfl | rfl | rfl | rfl
    · rw [startsWithL_self_append]
      simp
    · rw [startsWithL_take_false rest (by decide), startsWithL_self_append]
      simp
    · rw [startsWithL_take_false rest (by decide)]
      cases hb : startsWithL (str "lakhs") (str "lakh" ++ rest) with
      | true => simp
      | false =>
        rw [startsWithL_self_append]
        simp
    · rw [startsWithL_take_false rest (by decide),
        startsWithL_take_false rest (by decide),
        startsWithL_take_false rest (by decide), startsWithL_self_append]
      simp
  rcases hfrac with rfl | ⟨d2, rfl, hd2ne, hd2dig⟩
  · have hassoc : (d1 ++ [] ++ sp ++ u) ++ rest = d1 ++ (sp ++ (u ++ rest)) := by
      simp [List.append_assoc]
    rw [hassoc]
    exact hunits
  · have hassoc : (d1 ++ ('.' :: d2) ++ sp ++ u) ++ rest =
        d1 ++ ('.' :: (d2 ++ (sp ++ (u ++ rest)))) := by
      simp [List.append_assoc]
    rw [hassoc]
    have htw := takeWhile_append_of_all (p := Char.isDigit)
      ('.' :: (d2 ++ (sp ++ (u ++ rest)))) hd1dig
    have hdot : ∀ c, ('.' :: (d2 ++ (sp ++ (u ++ rest)))).head? = some c →
        c.isDigit = false := by
      intro c hc
      injection hc with hc
      subst hc; decide
    have htw2 := takeWhile_eq_nil_of_head hdot
    have hfp := fracPart_eq_frac hd2ne hd2dig hX
    have hd2emp : (d2.isEmpty = true) = False := by simp [List.isEmpty_iff, hd2ne]
    simp only [matchAt, htw.1, htw.2, htw2.1, htw2.2, List.append_nil, hd1emp,
      if_false, hfp, hsptake.1, hsptake.2, hsptail.1, hsptail.2]
    rcases hu with rfl | rfl | rfl | rfl
    · rw [startsWithL_self_append]
      simp
    · rw [startsWithL_take_false rest (by decide), startsWithL_self_append]
      simp
    · rw [startsWithL_take_false rest (by decide)]
      cases hb : startsWithL (str "lakhs") (str "lakh" ++ rest) with
      | true => simp
      | false =>
        rw [startsWithL_self_append]
        simp
    · rw [startsWithL_take_false rest (by decide),
        startsWithL_take_false rest (by decide),
        startsWithL_take_false rest (by decide), startsWithL_self_append]
      simp

theorem searchCtc_some {cs s : Str} (h : searchCtc cs = some s) :
    OccursIn s cs ∧ CtcPattern s := by
  induction cs with
  | nil => cases h
  | cons c rest ih =>
    unfold searchCtc at h
    split at h
    · injection h with h
      subst h
      obtain ⟨⟨t, ht⟩, hp⟩ := matchAt_some (by assumption)
      exact ⟨⟨[], t, by simpa using ht⟩, hp⟩
    · obtain ⟨⟨p, t, hpt⟩, hp⟩ := ih h
      exact ⟨⟨c :: p, t, by simp [hpt]⟩, hp⟩

theorem searchCtc_append_isSome (p tail : Str) (h : (matchAt tail).isSome = true) :
    (searchCtc (p ++ tail)).isSome = true := by
  induction p with
  | nil =>
    simp only [List.nil_append]
    cases tail with
    | nil => simp [matchAt] at h
    | cons c rest =>
      unfold searchCtc
      cases hm : matchAt (c :: rest) with
      | some m => simp
      | none =>
        rw [hm] at h
        simp at h
  | cons a p' ih =>
    simp only [List.cons_append]
    unfold searchCtc
    cases hm : matchAt (a :: (p' ++ tail)) with
    | some m => simp
    | none => exact ih

/-- C8 counterexample: `extract_ctc` matches against the lower-cased text, so
for the input "Package: 12 LPA" it returns "12 lpa", which is not a verbatim
substring of the input. -/
theorem extract_ctc_not_verbatim :
    extract_ctc (str "Package: 12 LPA") = some (str "12 lpa") ∧
      containsSub (str "12 lpa") (str "Package: 12 LPA") = false := by decide

/-- C8 (amended): for every input text, `extract_ctc` either returns a
substring of the *lower-cased* input matching the number-then-unit pattern
(a digit run, optional decimal part, optional whitespace, then one of
lpa / lakhs / lakh / ctc), or returns `none` exactly when no substring of the
lower-cased input matches that pattern; absence is not an error. -/
theorem extract_ctc_characterization (text : Str) :
    (∀ s, extract_ctc text = some s →
        containsSub s (pyLower text) = true ∧ CtcPattern s) ∧
      (extract_ctc text = none →
        ∀ s, containsSub s (pyLower text) = true → ¬ CtcPattern s) := by
  constructor
  · intro s hs
    obtain ⟨hocc, hp⟩ := searchCtc_some hs
    exact ⟨(containsSub_iff _ _).mpr hocc, hp⟩
  · intro hnone s hsub hp
    obtain ⟨p, t, hpt⟩ := (containsSub_iff _ _).mp hsub
    have h1 : (matchAt (s ++ t)).isSome = true := matchAt_pattern hp t
    have h2 : (searchCtc (p ++ (s ++ t))).isSome = true :=
      searchCtc_append_isSome _ _ h1
    rw [← hpt] at h2
    unfold extract_ctc at hnone
    rw [hnone] at h2
    simp at h2

/-- Witness for C8 (amended), instantiated at "Package: 12 LPA". -/
theorem extract_ctc_characterization_witness :
    containsSub (str "12 lpa") (pyLower (str "Package: 12 LPA")) = true ∧
      CtcPattern (str "12 lpa") :=
  (extract_ctc_characterization (str "Package: 12 LPA")).1 (str "12 lpa") (by decide)

/-- Every registry key and alias is a nonempty string. -/
theorem company_db_nonempty :
    COMPANY_DATABASE.all
      (fun p => !p.1.isEmpty && p.2.aliases.all fun a => !a.isEmpty) = true := by
  decide

/-- C5: registry lookup is case-insensitive and alias-based: "WIPRO" and
"Wipro Limited" both classify as Service / Tier-1, and for every registry
entry the lookup succeeds on the canonical key in any letter case and on any
exact alias match. -/
theorem classification_case_and_alias :
    get_company_classification (str "WIPRO") =
        some ⟨str "Service", str "Tier-1"⟩ ∧
      get_company_classification (str "Wipro Limited") =
        some ⟨str "Service", str "Tier-1"⟩ ∧
      ∀ name : Str, ∀ e ∈ COMPANY_DATABASE,
        (pyLower name = e.1 ∨ name ∈ e.2.aliases) →
        (get_company_classification name).isSome = true := by
  refine ⟨by decide, by decide, ?_⟩
  intro name e he hyp
  have hdb := List.all_eq_true.mp company_db_nonempty e he
  rw [Bool.and_eq_true] at hdb
  have hemp : name.isEmpty = false := by
    cases name with
    | nil =>
      exfalso
      rcases hyp with hk | ha
      · have hne : ¬ e.1.isEmpty = true := by simpa using hdb.1
        rw [← hk] at hne
        exact hne rfl
      · have := List.all_eq_true.mp hdb.2 [] ha
        simp at this
    | cons c cs => rfl
  unfold get_company_classification
  simp only [hemp, Bool.false_eq_true, if_false]
  cases hfind : COMPANY_DATABASE.find? (fun p => p.1 == pyLower name) with
  | some p => simp
  | none =>
    rcases hyp with hk | ha
    · exfalso
      have hnone := List.find?_eq_none.mp hfind e he
      simp [hk] at hnone
    · have hsome : (COMPANY_DATABASE.find? (fun p =>
          p.2.aliases.any fun a =>
            pyLower a == pyLower name ||
              containsSub (pyLower name) (pyLower a))).isSome = true := by
        rw [List.find?_isSome]
        refine ⟨e, he, ?_⟩
        simp only [List.any_eq_true]
        exact ⟨name, ha, by simp⟩
      obtain ⟨p, hp⟩ := Option.isSome_iff_exists.mp hsome
      rw [hp]
      simp

/-- Witness for C5: the canonical key "google" in upper case resolves. -/
theorem classification_case_and_alias_witness :
    (get_company_classification (str "GOOGLE")).isSome = true :=
  classification_case_and_alias.2.2 (str "GOOGLE")
    (str "google",
      ⟨[str "google", str "alphabet", str "google llc"], str "Product", str "FAANGM"⟩)
    (by decide) (Or.inl (by decide))

/-- C4: on the TCS bond scenario, company extraction returns "Tcs", which
classifies as Service / Tier-1; exactly the risk signal "bond" is detected;
the Decision Engine on (Service, {"bond"}, extracted experience) returns
Skip / High via the bond rule (rule 1 does not fire, rule 2 does); and the
fresher alignment is "Good" independently of the Skip decision. -/
theorem tcs_bond_scenario :
    extract_company_name tcs_jd_text = some (str "Tcs") ∧
      get_company_classification (str "Tcs") = some ⟨str "Service", str "Tier-1"⟩ ∧
      detect_risk_signals tcs_jd_text = [str "bond"] ∧
      rule1Cond (str "Service")
        (expLowerOf (some (extract_experience_requirement tcs_jd_text))) = false ∧
      rule2Cond (risksLowerOf (some [str "bond"])) = true ∧
      (interpret_decision (str "Service") (some [str "bond"])
        (some (extract_experience_requirement tcs_jd_text))).recommendation = str "Skip" ∧
      (interpret_decision (str "Service") (some [str "bond"])
        (some (extract_experience_requirement tcs_jd_text))).risk_level = str "High" ∧
      determine_fresher_alignment (extract_experience_requirement tcs_jd_text)
        (str "Service") = str "Good" := by
  decide

/-- C1: the recommendation and risk-level fields of the final analysis
response always equal exactly the output of the Decision Engine on the same
(company type, detected risk-signal set, extracted required-experience
string); the provider-supplied `LLMExplanations` inside `quick` never set
these two fields (they are universally quantified here). -/
theorem final_decision_fields_deterministic (jd_text : Str) (quick : QuickPassResult) :
    (run_deep_pass jd_text quick).decision_guidance.recommendation =
        (interpret_decision quick.company_type (some quick.risk_signals_detected)
          (some (extract_experience_requirement jd_text))).recommendation ∧
      (run_deep_pass jd_text quick).risk_and_tradeoffs.risk_level =
        (interpret_decision quick.company_type (some quick.risk_signals_detected)
          (some (extract_experience_requirement jd_text))).risk_level :=
  ⟨rfl, rfl⟩

theorem generate_resume_bullets_length (jd_text : Str) :
    (generate_resume_bullets jd_text).length = 3 := by
  simp only [generate_resume_bullets]
  repeat' split
  all_goals rfl

/-- C6: for every input text and every provider bullet list carried in
`quick`, the final `ats_optimized_bullets` has exactly 3 elements; provider
bullets are used (truncated to 3) when at least 3 are supplied, and the
keyword-triggered templates are used otherwise. -/
theorem ats_bullets_exactly_three (jd_text : Str) (quick : QuickPassResult) :
    ((run_deep_pass jd_text quick).resume_guidance.ats_optimized_bullets).length = 3 ∧
      (3 ≤ quick.resume_guidance.ats_optimized_bullets.length →
        (run_deep_pass jd_text quick).resume_guidance.ats_optimized_bullets =
          quick.resume_guidance.ats_optimized_bullets.take 3) ∧
      (quick.resume_guidance.ats_optimized_bullets.length < 3 →
        (run_deep_pass jd_text quick).resume_guidance.ats_optimized_bullets =
          generate_resume_bullets jd_text) := by
  have hpad : ∀ l : List Str, (l.take 3 ++ List.replicate (3 - (l.take 3).length)
      (str "Developed software solutions following industry best practices")).length = 3 := by
    intro l
    simp only [List.length_append, List.length_replicate, List.length_take]
    omega
  refine ⟨?_, ?_, ?_⟩
  · simp only [run_deep_pass]
    exact hpad _
  · intro h3
    simp only [run_deep_pass]
    split
    · rename_i hx
      exfalso
      simp only [Bool.or_eq_true, decide_eq_true_eq, List.isEmpty_iff] at hx
      rcases hx with hx | hx
      · rw [hx] at h3
        simp at h3
      · omega
    · have htk : (quick.resume_guidance.ats_optimized_bullets.take 3).length = 3 := by
        simp only [List.length_take]
        omega
      rw [htk]
      simp
  · intro h3
    simp only [run_deep_pass]
    split
    · have hg := generate_resume_bullets_length jd_text
      rw [List.take_of_length_le (le_of_eq hg), hg]
      simp
    · rename_i hx
      exfalso
      apply hx
      simp [h3]

/-- Witness for C6: with four provider bullets the first three are kept; with
none the keyword templates are used. -/
theorem ats_bullets_exactly_three_witness :
    (run_deep_pass (str "backend role")
        (sample_quick [str "b1", str "b2", str "b3", str "b4"])).resume_guidance.ats_optimized_bullets =
      [str "b1", str "b2", str "b3", str "b4"].take 3 ∧
      (run_deep_pass (str "backend role")
          (sample_quick [])).resume_guidance.ats_optimized_bullets =
        generate_resume_bullets (str "backend role") :=
  ⟨(ats_bullets_exactly_three (str "backend role")
      (sample_quick [str "b1", str "b2", str "b3", str "b4"])).2.1 (by decide),
   (ats_bullets_exactly_three (str "backend role")
      (sample_quick [])).2.2 (by decide)⟩

/-- C7 counterexample: the provenance marker recorded on a parse failure is
"json_parse_error", not "parse_error" as claimed. -/
theorem parse_error_provenance_marker :
    (analyze_jd_parse_failure none).meta.source = str "json_parse_error" ∧
      ¬ (analyze_jd_parse_failure none).meta.source = str "parse_error" := by
  decide

/-- C7 (amended): when the provider response fails to parse as the expected
structured shape, the adapter returns the fallback object with all fields at
neutral/unknown defaults and provenance marker "json_parse_error", and no
exception is raised to the caller (the embedded handler is a total
function). -/
theorem parse_failure_returns_fallback (company_name : Option Str) :
    analyze_jd_parse_failure company_name =
        get_fallback_analysis company_name (str "json_parse_error") ∧
      (analyze_jd_parse_failure company_name).company_classification.company_type =
        str "Unknown" ∧
      (analyze_jd_parse_failure company_name).company_classification.tier =
        str "Unknown" ∧
      (analyze_jd_parse_failure company_name).role_analysis.clarity_score = 0.5 ∧
      (analyze_jd_parse_failure company_name).role_analysis.red_flags = [] ∧
      (analyze_jd_parse_failure company_name).meta.source = str "json_parse_error" :=
  ⟨rfl, rfl, rfl, rfl, rfl, rfl⟩
